import Mathlib

/-!
Verification development for the Consistent Image Measurement Tool
(single source file `src/main.py`).

The embedding translates the data model and the operations of `main.py`
into executable Lean definitions:

* `QImage` / `Project` model `QPixmap`/`QImage` and the `Project` class
  (an image is a width, a height and an opaque row-major byte list;
  Qt pixel storage is library code, so pixel bytes are kept abstract).
* the base64 codec (`toBase64` / `fromBase64`) models
  `QByteArray.toBase64` / `QByteArray.fromBase64` (RFC 4648 alphabet,
  trailing padding with the character `=` code 61, invalid characters
  skipped on decode as Qt does by default).
* `pngEncode` / `pngDecode` stand for the Qt PNG codec used by
  `image_to_base64` / `base64_to_image`; they are modelled from the spec
  (lossless raster encoding) because the codec is Qt library code, not
  repository code.
* the interaction part (mouse handlers, the busy-poll capture loop,
  `draw_line`, `new_project`, `abort_current_action_if_any`,
  `resizeEvent`) is modelled as explicit state passing over a finite
  event list; an exhausted event list stands for the capture loop
  blocking forever (no further user input before cancel/close).
* Python exceptions are modelled with `Except` (`ZeroDivisionError`
  from integer division by zero, `TypeError` from calling
  `QPainter.eraseRect` with no arguments, `KeyError` on a missing
  JSON field is surfaced as the spec name `missingFieldError`).
-/

namespace CIMT

/-- Model of a Qt image/pixmap: dimensions plus opaque row-major pixel
bytes. A null pixmap is one with a zero dimension. -/
structure QImage where
  width : Nat
  height : Nat
  pixels : List Nat
deriving DecidableEq, Repr

/-- Model of QPixmap.isNull: the default-constructed pixmap has size 0.
A valid loaded image has both dimensions positive. -/
def QImage.isNull (img : QImage) : Bool := img.width == 0 || img.height == 0

/-- Model of the default-constructed (null) QPixmap/QImage. -/
def QImage.nullImage : QImage := ⟨0, 0, []⟩

/-- Writing one pixel of the stored pixel bytes (row-major index);
out-of-range writes are dropped, as List.set is. -/
def QImage.setPixel (img : QImage) (x y c : Nat) : QImage :=
  { img with pixels := img.pixels.set (y * img.width + x) c }

/-- Validity of an image for serialization: dimensions fit in 32 bits and
the stored pixel data is genuine bytes. -/
def QImage.wellformed (img : QImage) : Prop :=
  img.width < 2 ^ 32 ∧ img.height < 2 ^ 32 ∧ ∀ b ∈ img.pixels, b < 256

instance (img : QImage) : Decidable img.wellformed := by
  unfold QImage.wellformed; infer_instance

/-- Image-space point, stored by `draw_line` as a pair of ints obtained
from nonnegative viewport coordinates. -/
abbrev Point := Nat × Nat

/-- Measurement: the ordered pair of points appended by `draw_line`
(`main.py` line 383). -/
abbrev Measurement := Point × Point

/-- The Project class of `main.py` (lines 33-45): one unscaled pixmap and
the ordered measurement list. -/
structure Project where
  unscaled_pixmap : QImage
  measurements : List Measurement
deriving DecidableEq, Repr

/-- Project.__init__: null pixmap and empty measurement list. -/
def Project.init : Project := ⟨QImage.nullImage, []⟩

/-! ## Base64 codec

Model of `QByteArray.toBase64` / `QByteArray.fromBase64` used by
`image_to_base64` / `base64_to_image`. Encoding turns every 3 input
bytes into 4 sextets (with a 2 or 3 sextet tail for a short final
group), maps sextets through the RFC 4648 alphabet and appends `=`
padding; decoding skips characters outside the alphabet (the Qt
default ignores decoding errors) and reassembles the bytes. -/

/-- Sextet stream of the byte list, 3 bytes to 4 sextets. -/
def base64EncodeChunks : List Nat → List Nat
  | [] => []
  | [a] => [a / 4, a % 4 * 16]
  | [a, b] => [a / 4, a % 4 * 16 + b / 16, b % 16 * 4]
  | a :: b :: c :: rest =>
      a / 4 :: (a % 4 * 16 + b / 16) :: (b % 16 * 4 + c / 64) :: c % 64 ::
        base64EncodeChunks rest

/-- Byte list of a sextet stream, 4 sextets to 3 bytes; a lone trailing
sextet carries fewer than 8 bits and is dropped. -/
def base64DecodeChunks : List Nat → List Nat
  | [] => []
  | [_] => []
  | [x, y] => [x * 4 + y / 16]
  | [x, y, z] => [x * 4 + y / 16, y % 16 * 16 + z / 4]
  | x :: y :: z :: w :: rest =>
      (x * 4 + y / 16) :: (y % 16 * 16 + z / 4) :: (z % 4 * 64 + w) ::
        base64DecodeChunks rest

/-- RFC 4648 alphabet as character codes. -/
def base64CharOfSextet (s : Nat) : Nat :=
  if s < 26 then 65 + s
  else if s < 52 then 97 + (s - 26)
  else if s < 62 then 48 + (s - 52)
  else if s = 62 then 43
  else 47

/-- Inverse alphabet lookup; characters outside the alphabet (including
the padding character 61) decode to none and are skipped. -/
def sextetOfBase64Char (c : Nat) : Option Nat :=
  if 65 ≤ c ∧ c ≤ 90 then some (c - 65)
  else if 97 ≤ c ∧ c ≤ 122 then some (c - 97 + 26)
  else if 48 ≤ c ∧ c ≤ 57 then some (c - 48 + 52)
  else if c = 43 then some 62
  else if c = 47 then some 63
  else none

/-- Trailing `=` padding (character code 61) as emitted by
`QByteArray.toBase64` for a final group of 1 or 2 bytes. -/
def base64Padding (n : Nat) : List Nat :=
  match n % 3 with
  | 1 => [61, 61]
  | 2 => [61]
  | _ => []

/-- Model of `QByteArray.toBase64().data()`. -/
def toBase64 (bs : List Nat) : List Nat :=
  (base64EncodeChunks bs).map base64CharOfSextet ++ base64Padding bs.length

/-- Model of `QByteArray.fromBase64`. -/
def fromBase64 (cs : List Nat) : List Nat :=
  base64DecodeChunks (cs.filterMap sextetOfBase64Char)

/-! ## Image serialization -/

/-- Big-endian 4-byte encoding of a 32-bit value. -/
def be4 (n : Nat) : List Nat :=
  [n / 2 ^ 24 % 256, n / 2 ^ 16 % 256, n / 2 ^ 8 % 256, n % 256]

/-- Modelled from the spec: the repository serializes the image with the
Qt PNG codec (`image.save(buffer, "PNG")` in `image_to_base64`), which is
library code outside src. The spec describes the payload as a lossless
single-frame raster encoding, so the model serializes the dimensions and
the pixel bytes verbatim. -/
def pngEncode (img : QImage) : List Nat := be4 img.width ++ be4 img.height ++ img.pixels

/-- Modelled from the spec: inverse of `pngEncode`
(`QImage.fromData(byte_array, "PNG")`); an undecodable payload yields no
image, which Qt reports as a null QImage. -/
def pngDecode : List Nat → Option QImage
  | w3 :: w2 :: w1 :: w0 :: h3 :: h2 :: h1 :: h0 :: ps =>
      some ⟨((w3 * 256 + w2) * 256 + w1) * 256 + w0,
            ((h3 * 256 + h2) * 256 + h1) * 256 + h0, ps⟩
  | _ => none

/-- Function image_to_base64 of `main.py` (lines 564-569). -/
def image_to_base64 (image : QImage) : List Nat := toBase64 (pngEncode image)

/-- Function base64_to_image of `main.py` (lines 572-574); a payload that
does not decode yields the null image. -/
def base64_to_image (base64_data : List Nat) : QImage :=
  (pngDecode (fromBase64 base64_data)).getD QImage.nullImage

/-! ## Project persistence -/

/-- Parsed top-level structure of a project file: the two JSON fields,
each possibly absent. The json module and the file I/O are library code;
the model starts from the parsed dictionary. -/
structure ProjectFileData where
  image : Option (List Nat)
  measurements : Option (List Measurement)
deriving DecidableEq, Repr

/-- Method Project.save of `main.py` (lines 38-45): the written file holds
the base64 PNG text under "image" and the measurement list under
"measurements". -/
def Project.save (p : Project) : ProjectFileData :=
  { image := some (image_to_base64 p.unscaled_pixmap),
    measurements := some p.measurements }

/-- Errors of project loading. Accessing a missing dictionary key in
`load_project_from_file` raises KeyError in Python; the spec names this
failure MissingFieldError, and the model carries the missing key. -/
inductive LoadError where
  | missingFieldError : String → LoadError
deriving DecidableEq, Repr

/-- Method load_project_from_file of `main.py` (lines 266-273), from the
parsed file data onwards, in statement order: `data["measurements"]` is
read first, then `data["image"]`, then the image is decoded and only then
is the active project mutated. An error escapes before any mutation. -/
def load_project_from_data (data : ProjectFileData) : Except LoadError Project :=
  match data.measurements with
  | none => .error (.missingFieldError "measurements")
  | some ms =>
      match data.image with
      | none => .error (.missingFieldError "image")
      | some b64 => .ok { unscaled_pixmap := base64_to_image b64, measurements := ms }

/-- The project the caller is left with after a load attempt: a raised
error propagates out of `load_project_from_file` before the active
project was touched, so the previous project stays. -/
def load_project_from_file (data : ProjectFileData) (current : Project) : Project :=
  match load_project_from_data data with
  | .error _ => current
  | .ok p => p

/-! ## Codec round-trip lemmas -/

theorem chunks_roundtrip (bs : List Nat) (h : ∀ b ∈ bs, b < 256) :
    base64DecodeChunks (base64EncodeChunks bs) = bs := by
  induction bs using base64EncodeChunks.induct with
  | case1 => simp [base64EncodeChunks, base64DecodeChunks]
  | case2 a =>
      simp only [base64EncodeChunks, base64DecodeChunks]
      have ha : a < 256 := h a (by simp)
      refine List.cons_eq_cons.mpr ⟨by omega, rfl⟩
  | case3 a b =>
      simp only [base64EncodeChunks, base64DecodeChunks]
      have ha : a < 256 := h a (by simp)
      have hb : b < 256 := h b (by simp)
      refine List.cons_eq_cons.mpr ⟨by omega, ?_⟩
      refine List.cons_eq_cons.mpr ⟨by omega, rfl⟩
  | case4 a b c rest ih =>
      simp only [base64EncodeChunks, base64DecodeChunks]
      have ha : a < 256 := h a (by simp)
      have hb : b < 256 := h b (by simp)
      have hc : c < 256 := h c (by simp)
      have hrest : ∀ x ∈ rest, x < 256 := fun x hx => h x (by simp [hx])
      refine List.cons_eq_cons.mpr ⟨by omega, ?_⟩
      refine List.cons_eq_cons.mpr ⟨by omega, ?_⟩
      refine List.cons_eq_cons.mpr ⟨by omega, ih hrest⟩

theorem char_table_roundtrip :
    ∀ s < 64, sextetOfBase64Char (base64CharOfSextet s) = some s := by
  decide

theorem encode_chunks_lt (bs : List Nat) (h : ∀ b ∈ bs, b < 256) :
    ∀ s ∈ base64EncodeChunks bs, s < 64 := by
  induction bs using base64EncodeChunks.induct with
  | case1 => simp [base64EncodeChunks]
  | case2 a =>
      have ha : a < 256 := h a (by simp)
      simp only [base64EncodeChunks, List.mem_cons, List.not_mem_nil, or_false]
      rintro s (rfl | rfl) <;> omega
  | case3 a b =>
      have ha : a < 256 := h a (by simp)
      have hb : b < 256 := h b (by simp)
      simp only [base64EncodeChunks, List.mem_cons, List.not_mem_nil, or_false]
      rintro s (rfl | rfl | rfl) <;> omega
  | case4 a b c rest ih =>
      have ha : a < 256 := h a (by simp)
      have hb : b < 256 := h b (by simp)
      have hc : c < 256 := h c (by simp)
      have hrest : ∀ x ∈ rest, x < 256 := fun x hx => h x (by simp [hx])
      simp only [base64EncodeChunks, List.mem_cons]
      rintro s (rfl | rfl | rfl | rfl | hs)
      · omega
      · omega
      · omega
      · omega
      · exact ih hrest s hs

theorem filterMap_char_table (l : List Nat) (h : ∀ s ∈ l, s < 64) :
    (l.map base64CharOfSextet).filterMap sextetOfBase64Char = l := by
  induction l with
  | nil => simp
  | cons s rest ih =>
      have hs : s < 64 := h s (by simp)
      have hrest : ∀ x ∈ rest, x < 64 := fun x hx => h x (by simp [hx])
      simp only [List.map_cons, List.filterMap_cons, char_table_roundtrip s hs, ih hrest]

theorem padding_filterMap (n : Nat) :
    (base64Padding n).filterMap sextetOfBase64Char = [] := by
  unfold base64Padding
  split <;> simp [sextetOfBase64Char]

theorem fromBase64_toBase64 (bs : List Nat) (h : ∀ b ∈ bs, b < 256) :
    fromBase64 (toBase64 bs) = bs := by
  unfold fromBase64 toBase64
  rw [List.filterMap_append, filterMap_char_table _ (encode_chunks_lt bs h),
    padding_filterMap, List.append_nil, chunks_roundtrip bs h]

theorem pngDecode_pngEncode (img : QImage) (hw : img.width < 2 ^ 32)
    (hh : img.height < 2 ^ 32) :
    pngDecode (pngEncode img) = some img := by
  simp only [pngEncode, be4, List.cons_append, List.nil_append, pngDecode,
    Option.some.injEq]
  cases img with
  | mk w h ps =>
      simp only [QImage.mk.injEq]
      refine ⟨?_, ?_, trivial⟩ <;> · norm_num at hw hh ⊢; omega

theorem pngEncode_bytes_lt (img : QImage) (hp : ∀ b ∈ img.pixels, b < 256) :
    ∀ b ∈ pngEncode img, b < 256 := by
  simp only [pngEncode, be4, List.cons_append, List.nil_append, List.mem_cons]
  rintro b (rfl | rfl | rfl | rfl | rfl | rfl | rfl | rfl | hb)
  · omega
  · omega
  · omega
  · omega
  · omega
  · omega
  · omega
  · omega
  · exact hp b hb

theorem base64_to_image_image_to_base64 (img : QImage) (h : img.wellformed) :
    base64_to_image (image_to_base64 img) = img := by
  obtain ⟨hw, hh, hp⟩ := h
  unfold base64_to_image image_to_base64
  rw [fromBase64_toBase64 _ (pngEncode_bytes_lt _ hp), pngDecode_pngEncode _ hw hh]
  rfl

/-- C1: for every Project with a valid RasterBuffer, decoding the data
produced by Project.save yields a pixmap identical to the saved one pixel
for pixel (and in dimensions) and a measurement list equal to the saved
one as an ordered sequence of point pairs. -/
theorem save_load_roundtrip (p : Project) (h : p.unscaled_pixmap.wellformed) :
    ∃ q, load_project_from_data (Project.save p) = .ok q ∧
      q.unscaled_pixmap.pixels = p.unscaled_pixmap.pixels ∧
      q.unscaled_pixmap.width = p.unscaled_pixmap.width ∧
      q.unscaled_pixmap.height = p.unscaled_pixmap.height ∧
      q.measurements = p.measurements := by
  refine ⟨p, ?_, rfl, rfl, rfl, rfl⟩
  simp [load_project_from_data, Project.save, base64_to_image_image_to_base64 _ h]

/-- Concrete 1 by 1 project used to instantiate the round-trip theorem. -/
def roundtripProject : Project := ⟨⟨1, 1, [7]⟩, [((0, 0), (1, 1))]⟩

/-- Witness for C1 at a concrete project. -/
theorem save_load_roundtrip_witness :
    roundtripProject.unscaled_pixmap.wellformed ∧
      ∃ q, load_project_from_data (Project.save roundtripProject) = .ok q ∧
        q.unscaled_pixmap.pixels = roundtripProject.unscaled_pixmap.pixels ∧
        q.unscaled_pixmap.width = roundtripProject.unscaled_pixmap.width ∧
        q.unscaled_pixmap.height = roundtripProject.unscaled_pixmap.height ∧
        q.measurements = roundtripProject.measurements :=
  ⟨by decide, save_load_roundtrip roundtripProject (by decide)⟩

/-- C8: a load attempt on parsed data that lacks the image field fails
with a missing-field error (a KeyError raised before any mutation of the
active project), and the previously active Project is left unchanged. -/
theorem load_missing_image_field (data : ProjectFileData) (current : Project)
    (h : data.image = none) :
    (∃ f, load_project_from_data data = .error (.missingFieldError f)) ∧
      load_project_from_file data current = current := by
  cases hm : data.measurements with
  | none =>
      exact ⟨⟨"measurements", by simp [load_project_from_data, hm]⟩,
        by simp [load_project_from_file, load_project_from_data, hm]⟩
  | some ms =>
      exact ⟨⟨"image", by simp [load_project_from_data, hm, h]⟩,
        by simp [load_project_from_file, load_project_from_data, hm, h]⟩

/-- Concrete parsed file data with measurements but no image field. -/
def missingImageData : ProjectFileData := ⟨none, some [((1, 2), (3, 4))]⟩

/-- Witness for C8 at concrete data and a concrete previous project. -/
theorem load_missing_image_field_witness :
    missingImageData.image = none ∧
      ((∃ f, load_project_from_data missingImageData = .error (.missingFieldError f)) ∧
        load_project_from_file missingImageData roundtripProject = roundtripProject) :=
  ⟨rfl, load_missing_image_field missingImageData roundtripProject rfl⟩

/-! ## Window geometry, mouse events and the capture loop

The window holds the two flags press_position and press_released
(`main.py` lines 59-60), set by mousePressEvent and mouseReleaseEvent
(lines 69-80). The busy-poll loop of get_mouse_press_window_position
(lines 450-455) pumps the event queue; the model processes a finite list
of pending pointer events one per poll cycle, and an exhausted list
stands for the loop blocking until cancel or window close. PyQt maps
QPoint truth value to not isNull, so the point (0, 0) is falsy. -/

/-- Fixed geometry of one capture session: the window rectangle
(self.rect), the offset of the pixmap viewer inside the window (the
composition mapToGlobal then pixmap_viewer.mapFromGlobal), and the size
of the pixmap currently displayed in the viewer
(self.pixmap_viewer.pixmap). -/
structure WindowGeom where
  rect_width : Int
  rect_height : Int
  viewer_x : Int
  viewer_y : Int
  pixmap_width : Nat
  pixmap_height : Nat
deriving DecidableEq, Repr

/-- Mouse button carried by a pointer event. -/
inductive MouseButton where
  | left
  | right
deriving DecidableEq, Repr

/-- Pending pointer events, dispatched by QCoreApplication.processEvents. -/
inductive Event where
  | press (button : MouseButton) (pos : Int × Int)
  | release (button : MouseButton) (pos : Int × Int)
deriving DecidableEq, Repr

/-- The two capture flags of the window. -/
structure CaptureFlags where
  press_position : Option (Int × Int)
  press_released : Bool
deriving DecidableEq, Repr

/-- Python truthiness of self.press_position: None is falsy, and PyQt
gives QPoint a truth value of not isNull, so QPoint(0, 0) is falsy too. -/
def truthyPos : Option (Int × Int) → Bool
  | none => false
  | some p => decide (p ≠ (0, 0))

/-- Membership test `event.pos() in self.rect()` (QRect.contains is
inclusive of the left/top edge and of right = width - 1). -/
def rect_contains (g : WindowGeom) (pos : Int × Int) : Bool :=
  decide (0 ≤ pos.1 ∧ pos.1 < g.rect_width ∧ 0 ≤ pos.2 ∧ pos.2 < g.rect_height)

/-- Method mousePressEvent of `main.py` (lines 69-72). -/
def mousePressEvent (f : CaptureFlags) (button : MouseButton) (pos : Int × Int) :
    CaptureFlags :=
  if button = .left then { press_position := some pos, press_released := false }
  else f

/-- Method mouseReleaseEvent of `main.py` (lines 74-80): the flag is set
only when a press position is recorded (and truthy), the button is the
left one and the release position lies inside the window rectangle. -/
def mouseReleaseEvent (g : WindowGeom) (f : CaptureFlags) (button : MouseButton)
    (pos : Int × Int) : CaptureFlags :=
  if truthyPos f.press_position && (button = .left) && rect_contains g pos then
    { f with press_released := true }
  else f

/-- Dispatch of one pending event to the window handlers. -/
def processEvent (g : WindowGeom) (f : CaptureFlags) : Event → CaptureFlags
  | .press b pos => mousePressEvent f b pos
  | .release b pos => mouseReleaseEvent g f b pos

/-- The poll loop body of get_mouse_press_window_position: while the
press position is falsy and the released flag is unset, pump events; on
exit return the recorded press position (none models the AttributeError
path, unreachable from reset flags). An exhausted event list models the
loop blocking for further input. -/
def waitForPress (g : WindowGeom) (f : CaptureFlags) (evs : List Event) :
    Option ((Int × Int) × List Event) :=
  if truthyPos f.press_position || f.press_released then
    f.press_position.map (fun p => (p, evs))
  else
    match evs with
    | [] => none
    | e :: rest => waitForPress g (processEvent g f e) rest

/-- Method get_mouse_press_window_position of `main.py` (lines 450-455):
reset both flags, then poll until a press position is recorded. -/
def get_mouse_press_window_position (g : WindowGeom) (evs : List Event) :
    Option ((Int × Int) × List Event) :=
  waitForPress g ⟨none, false⟩ evs

/-- Local position of a window point inside the pixmap viewer
(mapToGlobal followed by pixmap_viewer.mapFromGlobal). -/
def windowToViewerLocal (g : WindowGeom) (pos : Int × Int) : Int × Int :=
  (pos.1 - g.viewer_x, pos.2 - g.viewer_y)

/-- The acceptance test of get_mouse_press_window_position_in_pixmap_viewer
(lines 436-439): both comparisons are inclusive on both edges, so a local
position equal to the displayed pixmap width or height is accepted. -/
def pixmap_bounds_check (pixmap_width pixmap_height : Nat) (lp : Int × Int) : Bool :=
  decide (0 ≤ lp.1 ∧ lp.1 ≤ (pixmap_width : Int) ∧
    0 ≤ lp.2 ∧ lp.2 ≤ (pixmap_height : Int))

theorem waitForPress_length (g : WindowGeom) (f : CaptureFlags) (evs : List Event)
    (p : Int × Int) (rest : List Event)
    (h : waitForPress g f evs = some (p, rest)) : rest.length ≤ evs.length := by
  induction evs generalizing f with
  | nil =>
      unfold waitForPress at h
      split at h
      · simp only [Option.map_eq_some'] at h
        obtain ⟨q, hq, h⟩ := h
        simp only [Prod.mk.injEq] at h
        simp [h.2]
      · simp at h
  | cons e evs ih =>
      unfold waitForPress at h
      split at h
      · simp only [Option.map_eq_some'] at h
        obtain ⟨q, hq, h⟩ := h
        simp only [Prod.mk.injEq] at h
        simp [h.2]
      · have := ih _ h
        simp
        omega

theorem get_mouse_press_window_position_length (g : WindowGeom) (evs : List Event)
    (p : Int × Int) (rest : List Event)
    (h : get_mouse_press_window_position g evs = some (p, rest)) :
    rest.length < evs.length := by
  unfold get_mouse_press_window_position waitForPress at h
  simp only [truthyPos, Bool.false_or] at h
  cases evs with
  | nil => simp at h
  | cons e evs =>
      simp only [Bool.false_eq_true, if_false] at h
      have := waitForPress_length g _ evs p rest h
      simp
      omega

/-- Method get_mouse_press_window_position_in_pixmap_viewer of `main.py`
(lines 430-440): wait for a press, map it into the pixmap viewer, accept
it when it satisfies the inclusive bounds test, otherwise keep waiting.
The coordinates of an accepted position are nonnegative by the test. -/
def get_mouse_press_window_position_in_pixmap_viewer (g : WindowGeom)
    (evs : List Event) : Option ((Nat × Nat) × List Event) :=
  match h : get_mouse_press_window_position g evs with
  | none => none
  | some (p, rest) =>
      let lp := windowToViewerLocal g p
      if pixmap_bounds_check g.pixmap_width g.pixmap_height lp then
        some ((lp.1.toNat, lp.2.toNat), rest)
      else
        get_mouse_press_window_position_in_pixmap_viewer g rest
termination_by evs.length
decreasing_by
  exact get_mouse_press_window_position_length g evs p rest h

/-- Python runtime errors raised by the modelled methods. -/
inductive PyError where
  | zeroDivisionError
  | typeError
deriving DecidableEq, Repr

/-- Method window_position_to_image_position of `main.py` (lines 442-448):
scale a viewer position to image space using the unscaled pixmap size and
the displayed pixmap size. Python divides with / and truncates with int();
on the nonnegative integers produced by the viewer bounds test this equals
floor division. Dividing by a zero displayed width or height raises
ZeroDivisionError (the x coordinate is computed first). -/
def window_position_to_image_position (unscaled : QImage)
    (pixmap_width pixmap_height : Nat) (position : Nat × Nat) :
    Except PyError (Nat × Nat) :=
  if pixmap_width = 0 then .error .zeroDivisionError
  else if pixmap_height = 0 then .error .zeroDivisionError
  else .ok (position.1 * unscaled.width / pixmap_width,
            position.2 * unscaled.height / pixmap_height)

/-! ## Measurement rendering and the main window operations -/

/-- The configuration values of config.yaml consulted by the measurement
rendering (the relative line width is a fraction, modelled as an exact
rational; the preview guide color is kept as one opaque color value). -/
structure Config where
  line_width : ℚ
  preview_guide_color : Nat
deriving DecidableEq, Repr

/-- Method get_preview_guide_color of `main.py` (lines 553-554). -/
def get_preview_guide_color (cfg : Config) : Nat := cfg.preview_guide_color

/-- Method get_line_width of `main.py` (lines 425-428): math.ceil of the
configured relative line width times the smallest image dimension. -/
def get_line_width (cfg : Config) (smallest_dimension : Nat) : Int :=
  Int.ceil (cfg.line_width * (smallest_dimension : ℚ))

/-- The pen state of the measurement painter. The painter object itself
is opened on a pixmap; in draw_line that pixmap is
self.project.unscaled_pixmap, so every draw call writes into the stored
project pixmap. -/
structure Painter where
  pen_color : Nat
  pen_width : Int
deriving DecidableEq, Repr

/-- Method create_measurement_painter of `main.py` (lines 414-423):
QPainter(pixmap) with a pen of the configured preview guide color and the
computed width. -/
def create_measurement_painter (cfg : Config) (pixmap : QImage) : Painter :=
  { pen_color := get_preview_guide_color cfg,
    pen_width := get_line_width cfg (min pixmap.width pixmap.height) }

/-- The mutable state of MainWindow that the modelled operations read and
write: the active project, the two status labels, the capture geometry,
the measurement painter (absent until the first draw) and the checked
state of the draw-line tool button. -/
structure MainWindowState where
  project : Project
  status : String
  sub_status : String
  geom : WindowGeom
  measurement_painter : Option Painter
  tool_checked : Bool
deriving DecidableEq, Repr

/-- Method draw_point of `main.py` (lines 403-412): painter.drawPoint at
the image position, then update_pixmap rescales the source into the
viewer label. The painter used by draw_line is opened on
self.project.unscaled_pixmap, so the mark lands in the stored pixel data;
a pen stroke covers at least the addressed pixel, which is what the model
records. -/
def draw_point (st : MainWindowState) (image_position : Nat × Nat)
    (painter : Painter) : MainWindowState :=
  { st with project := { st.project with
      unscaled_pixmap := st.project.unscaled_pixmap.setPixel
        image_position.1 image_position.2 painter.pen_color } }

/-- Method draw_line of `main.py` (lines 343-388), one full invocation.
An unchecked toggle clears both status labels and returns. With a null
pixmap the no-project prompt runs first; response 2 (the reject button)
unchecks the tool and returns. Otherwise the status is set, the painter
is created on the project unscaled pixmap when absent, and two points are
captured in click order; each capture that never completes (the events
run out: the user cancels or closes before a qualifying press) leaves the
function parked, modelled by returning the state reached so far, and the
measurement is appended only after both points exist. A
ZeroDivisionError raised by the coordinate transform propagates. -/
def draw_line (cfg : Config) (st : MainWindowState) (checked : Bool)
    (prompt_response : Nat) (evs : List Event) : Except PyError MainWindowState :=
  if !checked then .ok { st with status := "", sub_status := "" }
  else if st.project.unscaled_pixmap.isNull && prompt_response == 2 then
    .ok { st with tool_checked := false }
  else
    let st1 := { st with status := "Drawing line" }
    let painter := st1.measurement_painter.getD
      (create_measurement_painter cfg st1.project.unscaled_pixmap)
    let st2 :=
      { st1 with
        measurement_painter := some painter
        sub_status := "Selecting point 1" }
    match get_mouse_press_window_position_in_pixmap_viewer st2.geom evs with
    | none => .ok st2
    | some (p1, evs1) =>
      match window_position_to_image_position st2.project.unscaled_pixmap
          st2.geom.pixmap_width st2.geom.pixmap_height p1 with
      | .error e => .error e
      | .ok q1 =>
        let st3 := { draw_point st2 q1 painter with sub_status := "Selecting point 2" }
        match get_mouse_press_window_position_in_pixmap_viewer st3.geom evs1 with
        | none => .ok st3
        | some (p2, _) =>
          match window_position_to_image_position st3.project.unscaled_pixmap
              st3.geom.pixmap_width st3.geom.pixmap_height p2 with
          | .error e => .error e
          | .ok q2 =>
            let st4 := draw_point st3 q2 painter
            .ok { st4 with
              project := { st4.project with
                measurements := st4.project.measurements ++ [(q1, q2)] },
              status := "", sub_status := "", tool_checked := false }

/-- Method abort_current_action_if_any of `main.py` (lines 466-481): with
a status text present the user is asked; Yes clears the status text,
unchecks the tool buttons and reports True, No reports False and changes
nothing; with no status text it reports True without prompting. -/
def abort_current_action_if_any (st : MainWindowState) (response_yes : Bool) :
    MainWindowState × Bool :=
  if st.status ≠ "" then
    if response_yes then
      ({ st with status := "", tool_checked := false }, true)
    else (st, false)
  else (st, true)

/-- Method new_project of `main.py` (lines 242-250). When a measurement
painter exists, the first statement calls
self.measurement_painter.eraseRect() with no arguments; QPainter has no
zero-argument eraseRect overload, so PyQt raises TypeError before
anything else happens. Otherwise the active project is replaced by a
fresh empty Project first; only then may the user be asked to abort a
running action (declining returns early) and an image file be chosen
(cancelling the dialog returns early). -/
def new_project (st : MainWindowState) (abort_response_yes : Bool)
    (chosen_image : Option QImage) : Except PyError MainWindowState :=
  if st.measurement_painter.isSome then .error .typeError
  else
    let st1 := { st with project := Project.init }
    match abort_current_action_if_any st1 abort_response_yes with
    | (st2, false) => .ok st2
    | (st2, true) =>
      match chosen_image with
      | none => .ok st2
      | some img =>
          .ok { st2 with project := { st2.project with unscaled_pixmap := img } }

/-- Qt transformation mode selected for display rescaling. fast is
nearest-neighbor resampling (FastTransformation), smooth is the smooth
resampling (SmoothTransformation). -/
inductive TransformationMode where
  | fast
  | smooth
deriving DecidableEq, Repr

/-- The mode choice of resizeEvent (`main.py` lines 529-533): images whose
largest dimension exceeds 64 are rescaled smoothly, all others with the
fast nearest-neighbor mode. -/
def resize_transformation_mode (unscaled : QImage) : TransformationMode :=
  if max unscaled.width unscaled.height > 64 then .smooth else .fast

/-- Method resizeEvent of `main.py` (lines 518-540): nothing happens for
a null pixmap; otherwise the display pixmap is recomputed with the chosen
transformation mode, which the model reports. -/
def resizeEvent (p : Project) : Option TransformationMode :=
  if p.unscaled_pixmap.isNull then none
  else some (resize_transformation_mode p.unscaled_pixmap)

/-! ## Concrete states used to instantiate the theorems -/

/-- Window of 100 by 100 with the viewer at the origin displaying a 2 by
2 pixmap. -/
def demoGeom : WindowGeom := ⟨100, 100, 0, 0, 2, 2⟩

/-- Configuration with relative line width 1/100 and preview guide color
value 7. -/
def demoConfig : Config := ⟨1 / 100, 7⟩

/-- Fresh session on a white 2 by 2 image displayed at scale 1, no
painter created yet, draw-line tool just checked. -/
def demoState : MainWindowState :=
  { project := ⟨⟨2, 2, [255, 255, 255, 255]⟩, []⟩
    status := ""
    sub_status := ""
    geom := demoGeom
    measurement_painter := none
    tool_checked := true }

/-- Geometry of the spec scenario: a 200 by 100 displayed pixmap. -/
def scenarioGeom : WindowGeom := ⟨400, 400, 0, 0, 200, 100⟩

/-- State of the spec scenario: a 100 by 50 image displayed at 2x. -/
def scenarioState : MainWindowState :=
  { project := ⟨⟨100, 50, []⟩, []⟩
    status := ""
    sub_status := ""
    geom := scenarioGeom
    measurement_painter := none
    tool_checked := true }

/-- Session in which a measurement was already drawn: the painter exists
and the project holds one measurement. -/
def painterState : MainWindowState :=
  { demoState with
    measurement_painter := some ⟨7, 1⟩
    project := ⟨⟨2, 2, [255, 255, 255, 255]⟩, [((0, 0), (1, 1))]⟩ }

/-! ## Helper lemmas about the capture loop and the transform -/

theorem waitForPress_step (g : WindowGeom) (f : CaptureFlags) (e : Event)
    (rest : List Event)
    (h : (truthyPos f.press_position || f.press_released) = false) :
    waitForPress g f (e :: rest) = waitForPress g (processEvent g f e) rest := by
  conv_lhs => rw [waitForPress.eq_def]
  rw [h]
  simp only [Bool.false_eq_true, if_false]

theorem waitForPress_exit (g : WindowGeom) (f : CaptureFlags) (evs : List Event)
    (p : Int × Int) (h : f.press_position = some p)
    (ht : truthyPos (some p) = true) :
    waitForPress g f evs = some (p, evs) := by
  unfold waitForPress
  rw [h, ht]
  simp

theorem window_position_to_image_position_setPixel (img : QImage)
    (x y c pw ph : Nat) (pos : Nat × Nat) :
    window_position_to_image_position (img.setPixel x y c) pw ph pos =
      window_position_to_image_position img pw ph pos := by
  simp [window_position_to_image_position, QImage.setPixel]

/-! ## Claim theorems -/

/-- C3 counterexample: against a zero-area displayed pixmap the
viewport-to-image transform returns no value at all (the division by the
zero pixmap width raises), so it does not return a sentinel. -/
theorem zero_viewport_raises_counterexample :
    ¬ ∃ v, window_position_to_image_position ⟨100, 50, []⟩ 0 0 (3, 4) =
      .ok v := by
  rintro ⟨v, hv⟩
  simp [window_position_to_image_position] at hv

/-- C3 (amended): for every viewport point, a displayed pixmap of zero
width or zero height makes window_position_to_image_position raise
ZeroDivisionError; no sentinel or no-op value is returned. -/
theorem zero_viewport_raises (unscaled : QImage) (pw ph : Nat)
    (pos : Nat × Nat) (h : pw = 0 ∨ ph = 0) :
    window_position_to_image_position unscaled pw ph pos =
      .error .zeroDivisionError := by
  rcases h with h | h
  · simp [window_position_to_image_position, h]
  · by_cases hpw : pw = 0 <;>
      simp [window_position_to_image_position, h, hpw]

/-- Witness for the amended C3 at a concrete zero-width viewport. -/
theorem zero_viewport_raises_witness :
    ((0 : Nat) = 0 ∨ (5 : Nat) = 0) ∧
      window_position_to_image_position ⟨100, 50, []⟩ 0 5 (3, 4) =
        .error .zeroDivisionError :=
  ⟨Or.inl rfl, zero_viewport_raises ⟨100, 50, []⟩ 0 5 (3, 4) (Or.inl rfl)⟩

/-- C7: for a loaded (non-null) RasterBuffer the display resampling mode
is a deterministic function of the largest dimension: at most 64 selects
the fast nearest-neighbor mode, anything larger the smooth mode. -/
theorem resize_mode_threshold (p : Project)
    (hnull : p.unscaled_pixmap.isNull = false) :
    resizeEvent p =
      some (if max p.unscaled_pixmap.width p.unscaled_pixmap.height ≤ 64
        then TransformationMode.fast else TransformationMode.smooth) := by
  simp only [resizeEvent, hnull, Bool.false_eq_true, if_false,
    resize_transformation_mode]
  rcases le_or_lt (max p.unscaled_pixmap.width p.unscaled_pixmap.height) 64
    with h | h
  · simp [h, Nat.not_lt.mpr h]
  · simp [h, Nat.not_le.mpr h, Nat.lt_iff_add_one_le.mp h]

/-- Witness for C7 on a concrete 64 by 64 image (fast mode). -/
theorem resize_mode_threshold_witness :
    (QImage.isNull ⟨64, 64, []⟩ = false) ∧
      resizeEvent ⟨⟨64, 64, []⟩, []⟩ =
        some (if max 64 64 ≤ 64
          then TransformationMode.fast else TransformationMode.smooth) :=
  ⟨rfl, resize_mode_threshold ⟨⟨64, 64, []⟩, []⟩ rfl⟩

/-- C9: the capture bounds test is inclusive on both edges, so a press at
local x equal to the displayed pixmap width w is accepted; with an image
of width W = w (scale 1) the transform then yields image x = W, a
coordinate outside the image-space point range 0 le x lt W of the data
model. -/
theorem inclusive_bounds_accept_edge (w h y : Nat) (ps : List Nat)
    (hw : 0 < w) (hh : 0 < h) (hy : y ≤ h) :
    pixmap_bounds_check w h ((w : Int), (y : Int)) = true ∧
      window_position_to_image_position ⟨w, h, ps⟩ w h (w, y) = .ok (w, y) ∧
      ¬ (w, y).1 < (QImage.mk w h ps).width := by
  refine ⟨?_, ?_, by simp⟩
  · simp only [pixmap_bounds_check, decide_eq_true_eq]
    refine ⟨by positivity, le_refl _, by positivity, ?_⟩
    exact_mod_cast hy
  · simp only [window_position_to_image_position, Nat.pos_iff_ne_zero.mp hw,
      Nat.pos_iff_ne_zero.mp hh, if_false]
    simp [Nat.mul_div_cancel _ hw, Nat.mul_div_cancel _ hh]

/-- Witness for C9 with a 10 by 10 image displayed at 10 by 10 and a
press at local position (10, 4). -/
theorem inclusive_bounds_accept_edge_witness :
    (0 < 10 ∧ 0 < 10 ∧ 4 ≤ 10) ∧
      (pixmap_bounds_check 10 10 ((10 : Int), (4 : Int)) = true ∧
        window_position_to_image_position ⟨10, 10, []⟩ 10 10 (10, 4) =
          .ok (10, 4) ∧
        ¬ ((10 : Nat), (4 : Nat)).1 < (QImage.mk 10 10 []).width) :=
  ⟨by omega, inclusive_bounds_accept_edge 10 10 4 [] (by omega) (by omega) (by omega)⟩

/-- C4 counterexample: a draw_line run whose two presses are each
followed by a release outside the window rectangle still accepts both
points and appends a measurement: the press alone drives the state
machine, so the claim that such gestures leave the MeasurementList
unchanged fails. -/
theorem release_outside_counterexample :
    rect_contains demoGeom (-5, -5) = false ∧
      (draw_line demoConfig demoState true 0
        [Event.press .left (1, 0), Event.release .left (-5, -5),
         Event.press .left (1, 1), Event.release .left (-5, -5)]).map
          (fun s => s.project.measurements) = .ok [((1, 0), (1, 1))] ∧
      demoState.project.measurements = [] := by
  refine ⟨by decide, ?_, rfl⟩
  simp [draw_line, demoConfig, demoState, demoGeom,
    get_mouse_press_window_position_in_pixmap_viewer,
    get_mouse_press_window_position, waitForPress, processEvent,
    mousePressEvent, mouseReleaseEvent, truthyPos, rect_contains,
    windowToViewerLocal, pixmap_bounds_check,
    window_position_to_image_position, draw_point, QImage.setPixel,
    QImage.isNull, create_measurement_painter, get_preview_guide_color,
    Except.map]

/-- C4 (amended): a release outside the window rectangle changes no
capture flag by itself, but the capture loop exits as soon as a left
press with a truthy position is recorded, never awaiting the release; a
press-release gesture whose release falls outside the widget bounds
therefore still accepts the pressed point. -/
theorem release_outside_no_flag_press_accepts :
    (∀ (g : WindowGeom) (f : CaptureFlags) (b : MouseButton) (pos : Int × Int),
      rect_contains g pos = false → mouseReleaseEvent g f b pos = f) ∧
      (∀ (g : WindowGeom) (p : Int × Int) (rest : List Event), p ≠ (0, 0) →
        get_mouse_press_window_position g (Event.press .left p :: rest) =
          some (p, rest)) := by
  constructor
  · intro g f b pos h
    simp [mouseReleaseEvent, h]
  · intro g p rest hp
    have ht : truthyPos (some p) = true := decide_eq_true hp
    unfold get_mouse_press_window_position
    rw [waitForPress_step g ⟨none, false⟩ (Event.press .left p) rest rfl]
    have hpe : processEvent g ⟨none, false⟩ (Event.press .left p) =
        ⟨some p, false⟩ := rfl
    rw [hpe]
    exact waitForPress_exit g ⟨some p, false⟩ rest p rfl ht

/-- Witness for the amended C4: a concrete ignored outside release and a
concrete press accepted without any release. -/
theorem release_outside_no_flag_press_accepts_witness :
    rect_contains demoGeom (200, 200) = false ∧
      mouseReleaseEvent demoGeom ⟨some (5, 5), false⟩ .left (200, 200) =
        ⟨some (5, 5), false⟩ ∧
      ((5 : Int), (5 : Int)) ≠ (0, 0) ∧
      get_mouse_press_window_position demoGeom [Event.press .left (5, 5)] =
        some ((5, 5), []) :=
  ⟨by decide,
   release_outside_no_flag_press_accepts.1 demoGeom ⟨some (5, 5), false⟩ .left
     (200, 200) (by decide),
   by decide,
   release_outside_no_flag_press_accepts.2 demoGeom (5, 5) [] (by decide)⟩

/-- C6: the viewport-to-image transform computes floor(vx mul W div w)
and floor(vy mul H div h) (natural floor division agrees with Python
int() truncation on these nonnegative integers), and the spec scenario
holds: a 100 by 50 image displayed at 200 by 100 with clicks at (40, 20)
and (160, 80) stores the measurement ((20, 10), (80, 40)). -/
theorem transform_floor_formula_and_scenario :
    (∀ (unscaled : QImage) (pw ph : Nat) (pos : Nat × Nat), 0 < pw → 0 < ph →
      window_position_to_image_position unscaled pw ph pos =
        .ok (pos.1 * unscaled.width / pw, pos.2 * unscaled.height / ph)) ∧
      (draw_line demoConfig scenarioState true 0
        [Event.press .left (40, 20), Event.press .left (160, 80)]).map
          (fun s => s.project.measurements) = .ok [((20, 10), (80, 40))] := by
  constructor
  · intro unscaled pw ph pos hw hh
    simp [window_position_to_image_position, Nat.pos_iff_ne_zero.mp hw,
      Nat.pos_iff_ne_zero.mp hh]
  · simp [draw_line, demoConfig, scenarioState, scenarioGeom,
      get_mouse_press_window_position_in_pixmap_viewer,
      get_mouse_press_window_position, waitForPress, processEvent,
      mousePressEvent, mouseReleaseEvent, truthyPos, rect_contains,
      windowToViewerLocal, pixmap_bounds_check,
      window_position_to_image_position, draw_point, QImage.setPixel,
      QImage.isNull, create_measurement_painter, get_preview_guide_color,
      Except.map]

/-- Witness for C6 instantiating the floor formula at the scenario
figures. -/
theorem transform_floor_formula_witness :
    ((0 : Nat) < 200 ∧ (0 : Nat) < 100) ∧
      window_position_to_image_position ⟨100, 50, []⟩ 200 100 (40, 20) =
        .ok (40 * 100 / 200, 20 * 50 / 100) :=
  ⟨by omega,
   transform_floor_formula_and_scenario.1 ⟨100, 50, []⟩ 200 100 (40, 20)
     (by omega) (by omega)⟩

/-- C5: a capture run that records point A (first capture and transform
succeed) but is cancelled before point B (no further qualifying press
ever arrives) appends nothing: the measurement list is exactly as before
the capture began, and the abort path returns the machine to Idle
(status text cleared, tool unchecked) still without touching the list. -/
theorem cancel_before_pointB_discards (cfg : Config) (st : MainWindowState)
    (pr : Nat) (evs evs1 : List Event) (p1 : Nat × Nat) (q1 : Nat × Nat)
    (hnull : st.project.unscaled_pixmap.isNull = false)
    (h1 : get_mouse_press_window_position_in_pixmap_viewer st.geom evs =
      some (p1, evs1))
    (ht : window_position_to_image_position st.project.unscaled_pixmap
      st.geom.pixmap_width st.geom.pixmap_height p1 = .ok q1)
    (h2 : get_mouse_press_window_position_in_pixmap_viewer st.geom evs1 = none) :
    ∃ st1, draw_line cfg st true pr evs = .ok st1 ∧
      st1.project.measurements = st.project.measurements ∧
      (abort_current_action_if_any st1 true).1.project.measurements =
        st.project.measurements ∧
      (abort_current_action_if_any st1 true).1.status = "" ∧
      (abort_current_action_if_any st1 true).1.tool_checked = false := by
  have hdl : draw_line cfg st true pr evs =
      .ok ({ draw_point
          { st with
            status := "Drawing line"
            measurement_painter := some (st.measurement_painter.getD
              (create_measurement_painter cfg st.project.unscaled_pixmap))
            sub_status := "Selecting point 1" }
          q1
          (st.measurement_painter.getD
            (create_measurement_painter cfg st.project.unscaled_pixmap))
          with sub_status := "Selecting point 2" }) := by
    simp only [draw_line, Bool.not_true, Bool.false_eq_true, if_false, hnull,
      Bool.false_and, h1, ht, h2, draw_point]
  refine ⟨_, hdl, ?_, ?_, ?_, ?_⟩ <;>
    simp [draw_point, abort_current_action_if_any]

/-- Witness for C5: on the demo state a single press captures point A and
the event queue ends before point B. -/
theorem cancel_before_pointB_discards_witness :
    demoState.project.unscaled_pixmap.isNull = false ∧
      ∃ st1, draw_line demoConfig demoState true 0 [Event.press .left (1, 1)] =
        .ok st1 ∧
        st1.project.measurements = demoState.project.measurements ∧
        (abort_current_action_if_any st1 true).1.project.measurements =
          demoState.project.measurements ∧
        (abort_current_action_if_any st1 true).1.status = "" ∧
        (abort_current_action_if_any st1 true).1.tool_checked = false := by
  have h1 : get_mouse_press_window_position_in_pixmap_viewer demoState.geom
      [Event.press .left (1, 1)] = some ((1, 1), []) := by
    simp [get_mouse_press_window_position_in_pixmap_viewer,
      get_mouse_press_window_position, waitForPress, processEvent,
      mousePressEvent, truthyPos, demoState, demoGeom, windowToViewerLocal,
      pixmap_bounds_check]
  have h2 : get_mouse_press_window_position_in_pixmap_viewer demoState.geom
      [] = none := by
    simp [get_mouse_press_window_position_in_pixmap_viewer,
      get_mouse_press_window_position, waitForPress, truthyPos]
  exact ⟨rfl, cancel_before_pointB_discards demoConfig demoState 0
    [Event.press .left (1, 1)] [] (1, 1) (1, 1) rfl h1 rfl h2⟩

/-- C2 counterexample: on a fresh white 2 by 2 project, one completed
capture run leaves the stored unscaled pixel data changed (the pen color
7 is written into the source pixels), so the stored RasterBuffer is not
read-only under marker rendering. -/
theorem markers_mutate_source_counterexample :
    (draw_line demoConfig demoState true 0
      [Event.press .left (1, 0), Event.press .left (1, 1)]).map
        (fun s => s.project.unscaled_pixmap.pixels) = .ok [255, 7, 255, 7] ∧
      demoState.project.unscaled_pixmap.pixels = [255, 255, 255, 255] := by
  refine ⟨?_, rfl⟩
  simp [draw_line, demoConfig, demoState, demoGeom,
    get_mouse_press_window_position_in_pixmap_viewer,
    get_mouse_press_window_position, waitForPress, processEvent,
    mousePressEvent, mouseReleaseEvent, truthyPos, rect_contains,
    windowToViewerLocal, pixmap_bounds_check,
    window_position_to_image_position, draw_point, QImage.setPixel,
    QImage.isNull, create_measurement_painter, get_preview_guide_color,
    Except.map]

/-- C2 (amended): the measurement painter is opened on the stored project
pixmap, so every completed capture run writes the configured pen color
into the stored unscaled pixel data at both accepted image positions (and
appends the measurement); marker rendering mutates the source pixels
rather than only a derived display surface. Stated for a run that creates
its painter (no painter exists yet), where the painter target is
unambiguously the current project pixmap. -/
theorem markers_mutate_source (cfg : Config) (st : MainWindowState) (pr : Nat)
    (evs evs1 evs2 : List Event) (p1 p2 q1 q2 : Nat × Nat)
    (hpainter : st.measurement_painter = none)
    (hnull : st.project.unscaled_pixmap.isNull = false)
    (h1 : get_mouse_press_window_position_in_pixmap_viewer st.geom evs =
      some (p1, evs1))
    (ht1 : window_position_to_image_position st.project.unscaled_pixmap
      st.geom.pixmap_width st.geom.pixmap_height p1 = .ok q1)
    (h2 : get_mouse_press_window_position_in_pixmap_viewer st.geom evs1 =
      some (p2, evs2))
    (ht2 : window_position_to_image_position st.project.unscaled_pixmap
      st.geom.pixmap_width st.geom.pixmap_height p2 = .ok q2) :
    (draw_line cfg st true pr evs).map
        (fun s => (s.project.unscaled_pixmap, s.project.measurements)) =
      .ok (((st.project.unscaled_pixmap.setPixel q1.1 q1.2
          cfg.preview_guide_color).setPixel q2.1 q2.2 cfg.preview_guide_color),
        st.project.measurements ++ [(q1, q2)]) := by
  simp only [draw_line, Bool.not_true, Bool.false_eq_true, if_false, hnull,
    Bool.false_and, h1, ht1, draw_point, window_position_to_image_position_setPixel,
    h2, ht2, hpainter, Option.getD, create_measurement_painter,
    get_preview_guide_color, Except.map]

/-- Witness for the amended C2: the demo capture run writes color 7 into
the stored pixels at (1, 0) and (1, 1). -/
theorem markers_mutate_source_witness :
    demoState.measurement_painter = none ∧
      (draw_line demoConfig demoState true 0
        [Event.press .left (1, 0), Event.press .left (1, 1)]).map
          (fun s => (s.project.unscaled_pixmap, s.project.measurements)) =
        .ok (((demoState.project.unscaled_pixmap.setPixel 1 0
            demoConfig.preview_guide_color).setPixel 1 1
            demoConfig.preview_guide_color),
          demoState.project.measurements ++ [((1, 0), (1, 1))]) := by
  have h1 : get_mouse_press_window_position_in_pixmap_viewer demoState.geom
      [Event.press .left (1, 0), Event.press .left (1, 1)] =
      some ((1, 0), [Event.press .left (1, 1)]) := by
    simp [get_mouse_press_window_position_in_pixmap_viewer,
      get_mouse_press_window_position, waitForPress, processEvent,
      mousePressEvent, truthyPos, demoState, demoGeom, windowToViewerLocal,
      pixmap_bounds_check]
  have h2 : get_mouse_press_window_position_in_pixmap_viewer demoState.geom
      [Event.press .left (1, 1)] = some ((1, 1), []) := by
    simp [get_mouse_press_window_position_in_pixmap_viewer,
      get_mouse_press_window_position, waitForPress, processEvent,
      mousePressEvent, truthyPos, demoState, demoGeom, windowToViewerLocal,
      pixmap_bounds_check]
  exact ⟨rfl, markers_mutate_source demoConfig demoState 0
    [Event.press .left (1, 0), Event.press .left (1, 1)]
    [Event.press .left (1, 1)] [] (1, 0) (1, 1) (1, 0) (1, 1)
    rfl rfl h1 rfl h2 rfl⟩

/-- C10 counterexample: with a measurement painter present (any state
after a first drawing), new_project raises TypeError at the zero-argument
eraseRect call before replacing anything, so the active project with its
nonempty measurement list is not replaced by a fresh empty one. -/
theorem new_project_counterexample :
    painterState.project.measurements ≠ [] ∧
      new_project painterState false none = .error .typeError := by
  exact ⟨by decide, rfl⟩

/-- C10 (amended): when no measurement painter exists, new_project
replaces the active Project with a fresh empty Project before the abort
prompt and before the file dialog, so the previous measurements are
discarded even when the user declines the abort or cancels the dialog;
when a painter exists, the zero-argument eraseRect call raises TypeError
first and nothing is replaced. -/
theorem new_project_amended :
    (∀ (st : MainWindowState) (resp : Bool) (file : Option QImage),
      st.measurement_painter = none →
        ∃ st1, new_project st resp file = .ok st1 ∧
          st1.project.measurements = [] ∧
          (resp = false → st.status ≠ "" → st1.project = Project.init) ∧
          (file = none → st1.project = Project.init)) ∧
      (∀ (st : MainWindowState) (resp : Bool) (file : Option QImage),
        st.measurement_painter.isSome → new_project st resp file =
          .error .typeError) := by
  constructor
  · intro st resp file hp
    have hcond : st.measurement_painter.isSome = false := by
      rw [hp]
      rfl
    by_cases hs : st.status = ""
    · have ha : abort_current_action_if_any { st with project := Project.init }
          resp = ({ st with project := Project.init }, true) := by
        simp [abort_current_action_if_any, hs]
      cases file with
      | none =>
          refine ⟨{ st with project := Project.init }, ?_, rfl, ?_, fun _ => rfl⟩
          · simp only [new_project, hcond, Bool.false_eq_true, if_false, ha]
          · intro _ h2
            exact absurd hs h2
      | some img =>
          refine ⟨({ st with project :=
              { Project.init with unscaled_pixmap := img } }), ?_, rfl, ?_, ?_⟩
          · simp only [new_project, hcond, Bool.false_eq_true, if_false, ha]
          · intro _ h2
            exact absurd hs h2
          · intro hfile
            exact absurd hfile (by simp)
    · cases resp with
      | false =>
          refine ⟨{ st with project := Project.init }, ?_, rfl,
            fun _ _ => rfl, fun _ => rfl⟩
          simp only [new_project, hcond, Bool.false_eq_true, if_false]
          simp [abort_current_action_if_any, hs]
      | true =>
          have ha : abort_current_action_if_any
              { st with project := Project.init } true =
              ({ { st with project := Project.init } with
                  status := ""
                  tool_checked := false }, true) := by
            simp [abort_current_action_if_any, hs]
          cases file with
          | none =>
              refine ⟨({ { st with project := Project.init } with
                  status := ""
                  tool_checked := false }), ?_, rfl, ?_, fun _ => rfl⟩
              · simp only [new_project, hcond, Bool.false_eq_true, if_false, ha]
              · intro h _
                exact absurd h (by simp)
          | some img =>
              refine ⟨({ { st with project :=
                    { Project.init with unscaled_pixmap := img } } with
                  status := ""
                  tool_checked := false }), ?_, rfl, ?_, ?_⟩
              · simp only [new_project, hcond, Bool.false_eq_true, if_false, ha]
              · intro h _
                exact absurd h (by simp)
              · intro hfile
                exact absurd hfile (by simp)
  · intro st resp file hp
    simp [new_project, hp]

/-- Witness for the amended C10: the fresh demo state gets its project
replaced even though the abort would be declined and the dialog
cancelled, and the painter state raises TypeError. -/
theorem new_project_amended_witness :
    demoState.measurement_painter = none ∧
      (∃ st1, new_project demoState false none = .ok st1 ∧
        st1.project.measurements = [] ∧
        (false = false → demoState.status ≠ "" → st1.project = Project.init) ∧
        ((none : Option QImage) = none → st1.project = Project.init)) ∧
      painterState.measurement_painter.isSome = true ∧
      new_project painterState true none = .error .typeError :=
  ⟨rfl, new_project_amended.1 demoState false none rfl, rfl,
   new_project_amended.2 painterState true none rfl⟩

end CIMT
